import Mathlib

/-!
Verification development for the Vancouver public-art status lookup tool
(`vancouver_art_status_tools.py`).  The Python source is shallowly embedded:
the insertion-ordered dictionary `self.status_db` becomes an association list
whose order is dict iteration order, Python strings become `String` values
manipulated through explicit code-point-level helpers mirroring `str.lower`,
`str.strip`, `str.split(",")`, substring containment (`in`) and slicing, and
each query method becomes a total Lean function returning the formatted
response string.  Where the Python file defines a method twice
(`list_active_artworks`, `compare_artwork_status`), the two bodies are
identical token for token up to whitespace, so a single embedding covers the
definition that wins.
-/

/-- Python `len(s)`: number of code points of the string. -/
def pyLen (s : String) : Nat := s.data.length

/-- Python `s.lower()`, restricted to the per-character lowering that
`Char.toLower` performs (ASCII letters; identical to CPython on the ASCII
record keys and queries this tool handles). -/
def pyLower (s : String) : String := ⟨s.data.map Char.toLower⟩

/-- Python `s[:n]` for a nonnegative `n`: the first `n` code points. -/
def pyTakeStr (n : Nat) (s : String) : String := ⟨s.data.take n⟩

/-- The characters Python `str.strip()` removes by default. -/
def isSpaceChar (c : Char) : Bool :=
  c = ' ' || c = '\t' || c = '\n' || c = '\r' || c = '\x0b' || c = '\x0c'

/-- Python `s.strip()`: drop leading and trailing whitespace. -/
def pyStrip (s : String) : String :=
  ⟨((s.data.dropWhile isSpaceChar).reverse.dropWhile isSpaceChar).reverse⟩

/-- Helper for `splitComma`: accumulates the current piece reversed. -/
def splitCommaAux : List Char → List Char → List String
  | [], cur => [⟨cur.reverse⟩]
  | c :: rest, cur =>
      if c = ',' then ⟨cur.reverse⟩ :: splitCommaAux rest []
      else splitCommaAux rest (c :: cur)

/-- Python `s.split(",")` (note `"".split(",") == [""]`). -/
def splitComma (s : String) : List String := splitCommaAux s.data []

/-- Whether `pat` is a prefix of `l`, on code points. -/
def isPrefL : List Char → List Char → Bool
  | [], _ => true
  | _ :: _, [] => false
  | a :: as, b :: bs => a = b && isPrefL as bs

/-- Whether `pat` occurs as a contiguous run inside `l`, on code points. -/
def isSubL (pat : List Char) : List Char → Bool
  | [] => pat.isEmpty
  | b :: bs => isPrefL pat (b :: bs) || isSubL pat bs

/-- Python `needle in hay` for strings: substring containment. -/
def strContains (hay needle : String) : Bool := isSubL needle.data hay.data

/-- Python `a < b` on strings: lexicographic order on code points. -/
def strLtL : List Char → List Char → Bool
  | _, [] => false
  | [], _ :: _ => true
  | a :: as, b :: bs => if a < b then true else if b < a then false else strLtL as bs

/-- `a ≤ b` in Python's string order. -/
def pyStrLe (a b : String) : Bool := !(strLtL b.data a.data)

/-- Python `l[:n]` for an arbitrary (possibly negative) `int` bound `n`:
a nonnegative bound takes the first `n` elements, a negative bound drops the
last `-n` (clamping at the empty list). -/
def pySlice (l : List α) (n : Int) : List α :=
  if 0 ≤ n then l.take n.toNat else l.take ((l.length : Int) + n).toNat

/-- One parsed artwork record, the value stored in `self.status_db`
(source lines 48-68). -/
structure Artwork where
  name : String
  title : String
  status : String
  location : String
  neighborhood : String
  description : String
  filename : String
deriving Repr, DecidableEq

/-- The in-memory index `self.status_db`: a Python 3.7+ dict, i.e. an
insertion-ordered association list with unique keys; list order is dict
iteration order. -/
abbrev Db := List (String × Artwork)

/-- Python `d[k] = v` on an insertion-ordered dict: overwrite in place when
the key is present, else append at the end. -/
def dbInsert : Db → String → Artwork → Db
  | [], k, v => [(k, v)]
  | (k0, v0) :: rest, k, v =>
      if k0 = k then (k0, v) :: rest else (k0, v0) :: dbInsert rest k v

/-- Python `d[k]` / `k in d`: the value stored under `k`, if any. -/
def dbLookup : Db → String → Option Artwork
  | [], _ => none
  | (k0, v) :: rest, k => if k0 = k then some v else dbLookup rest k

/-- Python `d.values()` in iteration order. -/
def dbValues (db : Db) : List Artwork := db.map Prod.snd

/-- The per-file parse result feeding `_load_status_database` (source lines
21-45): the file's name, its stem (`artwork_name`), and each regex section
(`## Title of Work`, `## Status`, `## DescriptionOfwork`, `## LocationOnsite`,
`## Neighbourhood`) as `some` of its already-stripped captured text when the
pattern matched, `none` otherwise.  Files whose read raises are skipped by the
`except` clause and therefore simply do not appear in the loader's input
list. -/
structure RawRecord where
  filename : String
  artwork_name : String
  titleOpt : Option String
  statusOpt : Option String
  descriptionOpt : Option String
  locationOpt : Option String
  neighborhoodOpt : Option String
deriving Repr, DecidableEq

/-- The raw parsed description before truncation (source line 39):
the stripped regex capture, or `""` when the section is absent. -/
def rawDescription (r : RawRecord) : String := r.descriptionOpt.getD ""

/-- The record value built from one parsed file (source lines 29-56):
defaults `title ← artwork_name`, `status ← "Unknown"`, empty strings for the
rest, and the description truncated to 300 code points with `"..."` appended
when it was longer (line 54). -/
def mkArtwork (r : RawRecord) : Artwork :=
  { name := r.artwork_name
    title := r.titleOpt.getD r.artwork_name
    status := r.statusOpt.getD "Unknown"
    location := r.locationOpt.getD ""
    neighborhood := r.neighborhoodOpt.getD ""
    description :=
      if pyLen (rawDescription r) > 300 then pyTakeStr 300 (rawDescription r) ++ "..."
      else rawDescription r
    filename := r.filename }

/-- The keys one file's record is inserted under (source lines 48 and 59-60):
the lowercased stem always, plus the lowercased title when it differs. -/
def recordKeys (r : RawRecord) : List String :=
  if pyLower (mkArtwork r).title = pyLower (mkArtwork r).name then
    [pyLower (mkArtwork r).name]
  else
    [pyLower (mkArtwork r).name, pyLower (mkArtwork r).title]

/-- Processing one file inside the loader's `for` loop (source lines 48-68). -/
def loadFile (db : Db) (r : RawRecord) : Db :=
  let art := mkArtwork r
  let db1 := dbInsert db (pyLower art.name) art
  if pyLower art.title ≠ pyLower art.name then dbInsert db1 (pyLower art.title) art
  else db1

/-- `_load_status_database`: fold the per-file step over the parsed files in
directory order, starting from the empty dict. -/
def loadDatabase (files : List RawRecord) : Db :=
  files.foldl loadFile []

/-- The fuzzy-match collection in `get_artwork_status` (source lines 105-108):
every entry whose key, or whose lowercased title, contains the lowercased
query, in index-iteration order. -/
def statusFuzzyMatches (db : Db) (artwork_name : String) : List Artwork :=
  (db.filter fun p =>
      strContains p.1 (pyLower artwork_name) ||
      strContains (pyLower p.2.title) (pyLower artwork_name)).map Prod.snd

/-- Python `"\n".join l`. -/
def joinLines : List String → String
  | [] => ""
  | [a] => a
  | a :: b :: rest => a ++ "\n" ++ joinLines (b :: rest)

/-- The detail block of an exact `get_artwork_status` hit (source lines
90-99). -/
def statusDetails (art : Artwork) : String :=
  let details :=
    (if art.location ≠ "" then ["Location: " ++ art.location] else []) ++
    (if art.neighborhood ≠ "" then ["Neighborhood: " ++ art.neighborhood] else []) ++
    (if art.description ≠ "" then ["Description excerpt: " ++ art.description] else [])
  if details.isEmpty then "No additional details available" else joinLines details

/-- The numbered fuzzy-match lines of `get_artwork_status`
(source lines 112-113), numbering from `i`. -/
def renderFuzzyLines : Nat → List Artwork → String
  | _, [] => ""
  | i, a :: rest =>
      toString i ++ ". " ++ a.title ++ " - Status: " ++ a.status ++ "\n" ++
      renderFuzzyLines (i + 1) rest

/-- The fuzzy-match response of `get_artwork_status` for a nonempty match
list (source lines 110-118). -/
def fuzzyResponse (artwork_name : String) (ms : List Artwork) : String :=
  "Could not find exact match for '" ++ artwork_name ++ "', but found " ++
    toString ms.length ++ " similar artwork(s):\n\n" ++
    renderFuzzyLines 1 (ms.take 5) ++
    (if ms.length > 5 then "\nAnd " ++ toString (ms.length - 5) ++ " more matches."
     else "")

/-- `get_artwork_status` (source lines 74-120). -/
def get_artwork_status (db : Db) (artwork_name : String) (include_details : Bool) : String :=
  if artwork_name = "" then "Error: No artwork name provided"
  else
    match dbLookup db (pyLower artwork_name) with
    | some art =>
        if include_details then
          "Artwork: " ++ art.title ++ "\nStatus: " ++ art.status ++ "\n\n" ++ statusDetails art
        else
          "Artwork: " ++ art.title ++ "\nStatus: " ++ art.status
    | none =>
        if (statusFuzzyMatches db artwork_name).isEmpty then
          "No artwork found matching '" ++ artwork_name ++ "'"
        else fuzzyResponse artwork_name (statusFuzzyMatches db artwork_name)

/-- The filter of `list_active_artworks` (source lines 272-273): status is
exactly `"In place"`, and when a neighborhood filter is given the record's
neighborhood is nonempty and contains it case-insensitively. -/
def activePass (neighborhood : String) (d : Artwork) : Bool :=
  d.status = "In place" &&
    (neighborhood = "" ||
      (d.neighborhood ≠ "" && strContains (pyLower d.neighborhood) (pyLower neighborhood)))

/-- The collection loop shared by `list_active_artworks` (source lines
266-275) and `list_artworks_by_neighborhood` (source lines 394-403): walk the
dict values with a `seen_titles` set, skip an entry whose title was already
seen, and on a passing entry keep it and add its title to the set — note the
title is recorded as seen only when the entry passes the filter. -/
def dedupPassLoop (pass : Artwork → Bool) : List Artwork → List String → List Artwork
  | [], _ => []
  | d :: rest, seen =>
      if seen.contains d.title then dedupPassLoop pass rest seen
      else if pass d then d :: dedupPassLoop pass rest (d.title :: seen)
      else dedupPassLoop pass rest seen

/-- Stable insertion of one record into a title-sorted list. -/
def insertByTitle (a : Artwork) : List Artwork → List Artwork
  | [] => [a]
  | b :: rest => if pyStrLe a.title b.title then a :: b :: rest else b :: insertByTitle a rest

/-- Python's stable `list.sort(key=lambda x: x["title"])` as stable insertion
sort. -/
def sortByTitle : List Artwork → List Artwork
  | [] => []
  | a :: rest => insertByTitle a (sortByTitle rest)

/-- The sorted, deduplicated, filtered record list of `list_active_artworks`
(source lines 265-277). -/
def activeSorted (db : Db) (neighborhood : String) : List Artwork :=
  sortByTitle (dedupPassLoop (activePass neighborhood) (dbValues db) [])

/-- The numbered entry lines of `list_active_artworks` (source lines
292-298), numbering from `i`. -/
def renderActiveLines : Nat → List Artwork → String
  | _, [] => ""
  | i, a :: rest =>
      toString i ++ ". " ++ a.title ++
      (if a.location ≠ "" then " - Located at: " ++ a.location else "") ++
      (if a.neighborhood ≠ "" then " (" ++ a.neighborhood ++ ")" else "") ++
      "\n" ++ renderActiveLines (i + 1) rest

/-- The `response` string of `list_active_artworks` before the optional
"more remain" suffix (source lines 287-298): the count header followed by
the numbered lines of the `limit`-restricted results. -/
def listActiveHeader (db : Db) (neighborhood : String) (limit : Int) : String :=
  "Found " ++ toString (activeSorted db neighborhood).length ++ " active artworks" ++
  (if neighborhood ≠ "" then " in or near " ++ neighborhood else "") ++
  " (showing " ++ toString (pySlice (activeSorted db neighborhood) limit).length ++ "):\n\n" ++
  renderActiveLines 1 (pySlice (activeSorted db neighborhood) limit)

/-- `list_active_artworks` (source lines 257-303; the file's second,
winning definition — byte-identical in behavior to the first at lines
122-172). -/
def list_active_artworks (db : Db) (neighborhood : String) (limit : Int) : String :=
  if (activeSorted db neighborhood).isEmpty then
    if neighborhood ≠ "" then
      "No active artworks found in the " ++ neighborhood ++ " neighborhood"
    else "No active artworks found"
  else if ((activeSorted db neighborhood).length : Int) > limit then
    listActiveHeader db neighborhood limit ++ "\nThere are " ++
      toString (((activeSorted db neighborhood).length : Int) - limit) ++
      " more active artworks."
  else listActiveHeader db neighborhood limit

/-- Python `[name.strip() for name in artwork_names.split(",") if name.strip()]`
(source line 315). -/
def tokenize (s : String) : List String :=
  ((splitComma s).map pyStrip).filter fun t => t ≠ ""

/-- One entry of the `results` list `compare_artwork_status` builds
(source lines 322-351): a resolved record's title and status together with
the original input token, or the unresolved token alone. -/
inductive CompareEntry where
  | found (name title status : String)
  | missing (name : String)
deriving Repr, DecidableEq

/-- Resolution of one token in `compare_artwork_status` (source lines
322-351): exact lowercased-key match first, else the first entry in
index-iteration order whose key or lowercased title contains the lowercased
token (the loop breaks at the first hit), else unresolved. -/
def compareLookup (db : Db) (name : String) : CompareEntry :=
  match dbLookup db (pyLower name) with
  | some art => .found name art.title art.status
  | none =>
      match db.find? (fun p =>
          strContains p.1 (pyLower name) ||
          strContains (pyLower p.2.title) (pyLower name)) with
      | some p => .found name p.2.title p.2.status
      | none => .missing name

/-- What one result contributes to the `in_place` bucket (source lines
362-363): the title, when resolved with status exactly `"In place"`. -/
def inPlaceSel : CompareEntry → Option String
  | .found _ t s => if s = "In place" then some t else none
  | .missing _ => none

/-- What one result contributes to the `not_in_place` bucket (source lines
364-365): `title (status)`, when resolved with any other status. -/
def notInPlaceSel : CompareEntry → Option String
  | .found _ t s => if s = "In place" then none else some (t ++ " (" ++ s ++ ")")
  | .missing _ => none

/-- What one result contributes to the `not_found` bucket (source lines
360-361): the unresolved input token. -/
def notFoundSel : CompareEntry → Option String
  | .found _ _ _ => none
  | .missing n => some n

/-- The `in_place` bucket, in results order (source lines 359-363). -/
def inPlaceBucket (rs : List CompareEntry) : List String := rs.filterMap inPlaceSel

/-- The `not_in_place` bucket, in results order (source lines 359-365). -/
def notInPlaceBucket (rs : List CompareEntry) : List String := rs.filterMap notInPlaceSel

/-- The `not_found` bucket, in results order (source lines 359-361). -/
def notFoundBucket (rs : List CompareEntry) : List String := rs.filterMap notFoundSel

/-- A numbered list block, numbering from `i` (source lines 369-382). -/
def renderNumbered : Nat → List String → String
  | _, [] => ""
  | i, s :: rest => toString i ++ ". " ++ s ++ "\n" ++ renderNumbered (i + 1) rest

/-- The comparison response for a nonempty token list (source lines
353-384): the heading followed by each non-empty bucket as a numbered block,
in the fixed bucket order. -/
def compareResponse (db : Db) (names_list : List String) : String :=
  "Artwork Status Comparison:\n\n" ++
  (if (inPlaceBucket (names_list.map (compareLookup db))).isEmpty then ""
   else "Currently in place:\n" ++
     renderNumbered 1 (inPlaceBucket (names_list.map (compareLookup db))) ++ "\n") ++
  (if (notInPlaceBucket (names_list.map (compareLookup db))).isEmpty then ""
   else "Not currently in place:\n" ++
     renderNumbered 1 (notInPlaceBucket (names_list.map (compareLookup db))) ++ "\n") ++
  (if (notFoundBucket (names_list.map (compareLookup db))).isEmpty then ""
   else "Not found in database:\n" ++
     renderNumbered 1 (notFoundBucket (names_list.map (compareLookup db))))

/-- `compare_artwork_status` (source lines 305-384; the file's second,
winning definition — behaviorally identical to the first at lines
174-256). -/
def compare_artwork_status (db : Db) (artwork_names : String) : String :=
  if artwork_names = "" then "Error: No artwork names provided"
  else if (tokenize artwork_names).isEmpty then
    "Error: Invalid input format. Please provide a comma-separated list of artwork names."
  else compareResponse db (tokenize artwork_names)

/-- The filter of `list_artworks_by_neighborhood` (source line 401): a
nonempty record neighborhood containing the query case-insensitively
(any status). -/
def nbPass (neighborhood : String) (d : Artwork) : Bool :=
  d.neighborhood ≠ "" && strContains (pyLower d.neighborhood) (pyLower neighborhood)

/-- The sorted, deduplicated, filtered record list of
`list_artworks_by_neighborhood` (source lines 394-405). -/
def nbSorted (db : Db) (neighborhood : String) : List Artwork :=
  sortByTitle (dedupPassLoop (nbPass neighborhood) (dbValues db) [])

/-- The numbered entry lines of `list_artworks_by_neighborhood` (source
lines 414-415). -/
def renderNbLines : Nat → List Artwork → String
  | _, [] => ""
  | i, a :: rest =>
      toString i ++ ". " ++ a.title ++ " - Status: " ++ a.status ++ "\n" ++
      renderNbLines (i + 1) rest

/-- The `response` string of `list_artworks_by_neighborhood` before the
optional "more remain" suffix (source lines 412-415). -/
def listNbHeader (db : Db) (neighborhood : String) (limit : Int) : String :=
  "Found " ++ toString (nbSorted db neighborhood).length ++ " artworks in " ++
  neighborhood ++ " (showing " ++
  toString (pySlice (nbSorted db neighborhood) limit).length ++ "):\n\n" ++
  renderNbLines 1 (pySlice (nbSorted db neighborhood) limit)

/-- `list_artworks_by_neighborhood` (source lines 386-420). -/
def list_artworks_by_neighborhood (db : Db) (neighborhood : String) (limit : Int) : String :=
  if (nbSorted db neighborhood).isEmpty then
    "No artworks found in the " ++ neighborhood ++ " neighborhood."
  else if ((nbSorted db neighborhood).length : Int) > limit then
    listNbHeader db neighborhood limit ++ "\nThere are " ++
      toString (((nbSorted db neighborhood).length : Int) - limit) ++
      " more artworks in this neighborhood."
  else listNbHeader db neighborhood limit

/-- Modelled from the spec sentence "Deduplicate by `title` (first occurrence
wins, in index-iteration order) before filtering": keep the first entry of
each title, regardless of any filter.  Declared only to compare the spec's
reading of `list_active_artworks` with the code's loop. -/
def dedupFirstByTitle : List Artwork → List String → List Artwork
  | [], _ => []
  | d :: rest, seen =>
      if seen.contains d.title then dedupFirstByTitle rest seen
      else d :: dedupFirstByTitle rest (d.title :: seen)

/-- Modelled from the spec: the record set `list_active_artworks` would
consider if deduplication by title happened before the status/neighborhood
filter, as the spec sentence reads. -/
def specDedupThenFilter (db : Db) (neighborhood : String) : List Artwork :=
  (dedupFirstByTitle (dbValues db) []).filter (activePass neighborhood)

/-- The number of distinct non-empty trimmed input tokens, as the claim
counts them (first occurrence kept). -/
def distinctTokenCount (s : String) : Nat := (tokenize s).eraseDups.length

/-- The total size of the three compare buckets for one input. -/
def compareBucketSum (db : Db) (s : String) : Nat :=
  (inPlaceBucket ((tokenize s).map (compareLookup db))).length +
  (notInPlaceBucket ((tokenize s).map (compareLookup db))).length +
  (notFoundBucket ((tokenize s).map (compareLookup db))).length

/-- A record fixture with an empty description. -/
def mkArt (name title status location neighborhood : String) : Artwork :=
  { name := name, title := title, status := status, location := location,
    neighborhood := neighborhood, description := "", filename := name ++ ".md" }

/-- Fixture: a file `Fountain.md` with no title section, so it is indexed
only under `"fountain"`. -/
def c1FileA : RawRecord :=
  { filename := "Fountain.md", artwork_name := "Fountain", titleOpt := none,
    statusOpt := some "In place", descriptionOpt := none, locationOpt := none,
    neighborhoodOpt := none }

/-- Fixture: a later file `The Fountain.md` whose title section reads
`Fountain`, so its title key collides with `c1FileA`'s name key. -/
def c1FileB : RawRecord :=
  { filename := "The Fountain.md", artwork_name := "The Fountain",
    titleOpt := some "Fountain", statusOpt := some "Removed",
    descriptionOpt := none, locationOpt := none, neighborhoodOpt := none }

/-- Fixture: two index entries sharing the title `The Drop`; the earlier one
does not pass the active filter, the later one does. -/
def c3Art1 : Artwork := mkArt "drop1" "The Drop" "Removed" "" "Downtown"

/-- Fixture: the later same-titled, in-place entry. -/
def c3Art2 : Artwork := mkArt "drop2" "The Drop" "In place" "" "Downtown"

/-- Fixture index for the `list_active_artworks` deduplication claim. -/
def c3Db : Db := [("drop1", c3Art1), ("drop2", c3Art2)]

/-- Fixture index with one exact key for the case-insensitivity claim. -/
def c4Db : Db := [("orca", mkArt "Orca" "Digital Orca" "In place" "Vancouver Convention Centre" "Downtown")]

/-- Fixture: the sixth record of `c5Db`, matched by the query `a` but beyond
the five listed fuzzy results. -/
def c5Art6 : Artwork := mkArt "a6" "T6" "Removed" "" ""

/-- Fixture index with six keys all containing `a`, none equal to `a`. -/
def c5Db : Db :=
  [("a1", mkArt "a1" "T1" "In place" "" ""),
   ("a2", mkArt "a2" "T2" "In place" "" ""),
   ("a3", mkArt "a3" "T3" "In place" "" ""),
   ("a4", mkArt "a4" "T4" "In place" "" ""),
   ("a5", mkArt "a5" "T5" "In place" "" ""),
   ("a6", c5Art6)]

/-- Fixture record for the fuzzy-superset witness. -/
def c5wArt : Artwork := mkArt "Digital Orca" "Digital Orca" "In place" "" ""

/-- Fixture index for the fuzzy-superset witness. -/
def c5wDb : Db := [("digital orca", c5wArt)]

/-- Fixture index with two in-place records of distinct titles. -/
def c6Db : Db :=
  [("a", mkArt "a" "A" "In place" "" ""), ("b", mkArt "b" "B" "In place" "" "")]

/-- Fixture: a parsed file with a short description (no truncation). -/
def c8File : RawRecord :=
  { filename := "X.md", artwork_name := "X", titleOpt := none, statusOpt := none,
    descriptionOpt := some "short text", locationOpt := none, neighborhoodOpt := none }

theorem strData_append (a b : String) : (a ++ b).data = a.data ++ b.data := by
  cases a; cases b; rfl

theorem strAppend_data_ne_nil (a b : String) (h : a.data ≠ []) : (a ++ b).data ≠ [] := by
  rw [strData_append]
  intro hc
  exact h (List.append_eq_nil.mp hc).1

theorem strNe_empty_of_data (a : String) (h : a.data ≠ []) : a ≠ "" := by
  intro hc
  apply h
  rw [hc]

theorem string_eq_empty_iff (s : String) : s = "" ↔ s.data = [] := by
  constructor
  · intro h; rw [h]
  · intro h; cases s; simp_all

theorem dbLookup_dbInsert (db : Db) (k : String) (v : Artwork) (q : String) :
    dbLookup (dbInsert db k v) q = if q = k then some v else dbLookup db q := by
  induction db with
  | nil =>
      unfold dbInsert dbLookup
      rcases eq_or_ne q k with h | h
      · subst h; simp
      · simp [h, Ne.symm h, dbLookup]
  | cons p rest ih =>
      obtain ⟨k0, v0⟩ := p
      unfold dbInsert
      rcases eq_or_ne k0 k with h0 | h0
      · subst h0
        rw [if_pos rfl]
        unfold dbLookup
        rcases eq_or_ne q k0 with h | h
        · subst h; simp
        · simp [h, Ne.symm h]
      · rw [if_neg h0]
        unfold dbLookup
        rcases eq_or_ne k0 q with h1 | h1
        · subst h1
          simp [h0]
        · simp [h1, ih]

theorem nameKey_mem_recordKeys (r : RawRecord) :
    pyLower (mkArtwork r).name ∈ recordKeys r := by
  unfold recordKeys
  split <;> simp

theorem titleKey_mem_recordKeys (r : RawRecord)
    (h : pyLower (mkArtwork r).title ≠ pyLower (mkArtwork r).name) :
    pyLower (mkArtwork r).title ∈ recordKeys r := by
  unfold recordKeys
  rw [if_neg h]
  simp

theorem dbLookup_loadFile (db : Db) (r : RawRecord) (q : String) :
    dbLookup (loadFile db r) q
      = if q ∈ recordKeys r then some (mkArtwork r) else dbLookup db q := by
  unfold loadFile recordKeys
  by_cases h : pyLower (mkArtwork r).title = pyLower (mkArtwork r).name
  · rw [if_neg (by simpa using h), if_pos h, dbLookup_dbInsert]
    simp
  · rw [if_pos h, if_neg h, dbLookup_dbInsert, dbLookup_dbInsert]
    rcases eq_or_ne q (pyLower (mkArtwork r).title) with h1 | h1
    · simp [h1]
    · rcases eq_or_ne q (pyLower (mkArtwork r).name) with h2 | h2
      · simp [h1, h2]
      · simp [h1, h2]

theorem dbLookup_foldl_loadFile (files : List RawRecord) (db : Db) (q : String)
    (h : ∀ s ∈ files, q ∉ recordKeys s) :
    dbLookup (files.foldl loadFile db) q = dbLookup db q := by
  induction files generalizing db with
  | nil => rfl
  | cons r rest ih =>
      rw [List.foldl_cons, ih _ (fun s hs => h s (List.mem_cons_of_mem _ hs)),
        dbLookup_loadFile, if_neg (h r (List.mem_cons_self _ _))]

/-- C1 (amended): after the loader processes `pre ++ [r] ++ post`, the record
of file `r` is reachable under its lowercased name provided no later file
inserts under that key, and additionally reachable under its lowercased title
when the title differs and no later file inserts under that key either.  (The
unamended claim, which promises reachability even when a later file's keys
collide, is refuted by `c1_collision_counterexample`.) -/
theorem c1_load_reachability (pre post : List RawRecord) (r : RawRecord)
    (hname : ∀ s ∈ post, pyLower (mkArtwork r).name ∉ recordKeys s) :
    dbLookup (loadDatabase (pre ++ r :: post)) (pyLower (mkArtwork r).name)
      = some (mkArtwork r)
    ∧ (pyLower (mkArtwork r).title ≠ pyLower (mkArtwork r).name →
        (∀ s ∈ post, pyLower (mkArtwork r).title ∉ recordKeys s) →
        dbLookup (loadDatabase (pre ++ r :: post)) (pyLower (mkArtwork r).title)
          = some (mkArtwork r)) := by
  unfold loadDatabase
  rw [List.foldl_append, List.foldl_cons]
  constructor
  · rw [dbLookup_foldl_loadFile post _ _ hname, dbLookup_loadFile,
      if_pos (nameKey_mem_recordKeys r)]
  · intro ht hpost
    rw [dbLookup_foldl_loadFile post _ _ hpost, dbLookup_loadFile,
      if_pos (titleKey_mem_recordKeys r ht)]

/-- C1 (counterexample): loading `Fountain.md` and then `The Fountain.md`
(whose title is `Fountain`) leaves the first record unreachable under its
lowercased name — the later file's title key silently overwrote it — refuting
the claim that every loaded record stays reachable under its lowercased name
even when a later file's name or title collides with an earlier record's
key. -/
theorem c1_collision_counterexample :
    dbLookup (loadDatabase [c1FileA, c1FileB]) (pyLower (mkArtwork c1FileA).name)
        ≠ some (mkArtwork c1FileA)
    ∧ dbLookup (loadDatabase [c1FileA, c1FileB]) (pyLower (mkArtwork c1FileA).name)
        = some (mkArtwork c1FileB) := by
  decide

/-- C1 witness: the amended reachability theorem applied to the concrete
two-file load, for the last file (no later file can collide). -/
theorem c1_witness :
    dbLookup (loadDatabase ([c1FileA] ++ c1FileB :: []))
        (pyLower (mkArtwork c1FileB).name) = some (mkArtwork c1FileB) :=
  (c1_load_reachability [c1FileA] [] c1FileB (by simp)).1

theorem mem_dbValues_dbInsert {a : Artwork} (db : Db) (k : String) (v : Artwork)
    (h : a ∈ dbValues (dbInsert db k v)) : a ∈ dbValues db ∨ a = v := by
  induction db with
  | nil =>
      unfold dbInsert at h
      simp [dbValues] at h
      exact Or.inr h
  | cons p rest ih =>
      obtain ⟨k0, v0⟩ := p
      unfold dbInsert at h
      by_cases hk : k0 = k
      · rw [if_pos hk] at h
        simp [dbValues] at h ⊢
        rcases h with h | h
        · exact Or.inr h
        · exact Or.inl (Or.inr h)
      · rw [if_neg hk] at h
        simp [dbValues] at h ⊢
        rcases h with h | h
        · exact Or.inl (Or.inl h)
        · rcases ih (by simpa [dbValues] using h) with h1 | h1
          · exact Or.inl (Or.inr (by simpa [dbValues] using h1))
          · exact Or.inr h1

theorem mem_dbValues_loadFile {a : Artwork} (db : Db) (r : RawRecord)
    (h : a ∈ dbValues (loadFile db r)) : a ∈ dbValues db ∨ a = mkArtwork r := by
  unfold loadFile at h
  by_cases ht : pyLower (mkArtwork r).title ≠ pyLower (mkArtwork r).name
  · rw [if_pos ht] at h
    rcases mem_dbValues_dbInsert _ _ _ h with h1 | h1
    · exact mem_dbValues_dbInsert _ _ _ h1
    · exact Or.inr h1
  · rw [if_neg ht] at h
    exact mem_dbValues_dbInsert _ _ _ h

theorem mem_dbValues_loadDatabase {a : Artwork} (files : List RawRecord) (db : Db)
    (h : a ∈ dbValues (files.foldl loadFile db)) :
    a ∈ dbValues db ∨ ∃ r ∈ files, a = mkArtwork r := by
  induction files generalizing db with
  | nil => exact Or.inl h
  | cons r rest ih =>
      rw [List.foldl_cons] at h
      rcases ih _ h with h1 | h1
      · rcases mem_dbValues_loadFile db r h1 with h2 | h2
        · exact Or.inl h2
        · exact Or.inr ⟨r, by simp, h2⟩
      · obtain ⟨s, hs, he⟩ := h1
        exact Or.inr ⟨s, by simp [hs], he⟩

/-- C8: every record stored in the loaded index comes from some input file,
and its stored description is the raw parsed description when that is at most
300 characters long, and the first 300 characters followed by the ellipsis
marker `"..."` when it is longer. -/
theorem c8_description_truncation (files : List RawRecord) (a : Artwork)
    (ha : a ∈ dbValues (loadDatabase files)) :
    ∃ r ∈ files, a = mkArtwork r ∧
      a.description =
        (if pyLen (rawDescription r) ≤ 300 then rawDescription r
         else pyTakeStr 300 (rawDescription r) ++ "...") := by
  rcases mem_dbValues_loadDatabase files [] ha with h | h
  · simp [dbValues] at h
  · obtain ⟨r, hr, he⟩ := h
    refine ⟨r, hr, he, ?_⟩
    subst he
    show (mkArtwork r).description = _
    simp only [mkArtwork]
    by_cases hlen : pyLen (rawDescription r) ≤ 300
    · rw [if_neg (by omega), if_pos hlen]
    · rw [if_pos (by omega), if_neg hlen]

/-- C8 witness: the truncation theorem applied to a concrete one-file load
whose description is short. -/
theorem c8_witness :
    ∃ r ∈ [c8File], mkArtwork c8File = mkArtwork r ∧
      (mkArtwork c8File).description =
        (if pyLen (rawDescription r) ≤ 300 then rawDescription r
         else pyTakeStr 300 (rawDescription r) ++ "...") :=
  c8_description_truncation [c8File] (mkArtwork c8File) (by decide)

theorem bucketSum_eq_length (rs : List CompareEntry) :
    (inPlaceBucket rs).length + (notInPlaceBucket rs).length
      + (notFoundBucket rs).length = rs.length := by
  induction rs with
  | nil => rfl
  | cons r rest ih =>
      cases r with
      | found n t s =>
          by_cases h : s = "In place" <;>
            simp [inPlaceBucket, notInPlaceBucket, notFoundBucket,
              inPlaceSel, notInPlaceSel, notFoundSel, List.filterMap_cons, h] at ih ⊢ <;>
            omega
      | missing n =>
          simp [inPlaceBucket, notInPlaceBucket, notFoundBucket,
            inPlaceSel, notInPlaceSel, notFoundSel, List.filterMap_cons] at ih ⊢
          omega

/-- C2 (amended): the three compare buckets partition the resolved results
exhaustively — their sizes sum to the number of non-empty trimmed input
tokens, counted with multiplicity.  (The unamended claim counts distinct
tokens; `c2_distinct_counterexample` refutes that reading, since duplicate
tokens each get their own bucket entry.) -/
theorem c2_bucket_partition (db : Db) (s : String) :
    (inPlaceBucket ((tokenize s).map (compareLookup db))).length
      + (notInPlaceBucket ((tokenize s).map (compareLookup db))).length
      + (notFoundBucket ((tokenize s).map (compareLookup db))).length
      = (tokenize s).length := by
  rw [bucketSum_eq_length, List.length_map]

/-- C2 (counterexample): on the input `a,a` against the empty index the
buckets hold two entries while there is only one distinct non-empty trimmed
token, refuting the claimed equation with the distinct-token count. -/
theorem c2_distinct_counterexample :
    compareBucketSum ([] : Db) "a,a" = 2 ∧ distinctTokenCount "a,a" = 1
    ∧ compareBucketSum ([] : Db) "a,a" ≠ distinctTokenCount "a,a" := by
  decide

theorem dedupPassLoop_eq_filter_dedup (pass : Artwork → Bool) (l : List Artwork)
    (seen : List String) :
    dedupPassLoop pass l seen = dedupFirstByTitle (l.filter pass) seen := by
  induction l generalizing seen with
  | nil => rfl
  | cons d rest ih =>
      by_cases hp : pass d <;> by_cases hs : seen.contains d.title <;>
        simp [dedupPassLoop, dedupFirstByTitle, List.filter_cons, hp, hs, ih]

/-- C3 (amended): the collection loop of `list_active_artworks` equals
filtering first and then deduplicating by title with first-passing-occurrence
wins: a record is dropped only when an earlier record with the same title
already passed the status/neighborhood filter.  (The unamended claim — that
the first same-titled entry in iteration order is the one considered even
when it fails the filter — is refuted by
`c3_first_occurrence_counterexample`.) -/
theorem c3_dedup_after_filter (db : Db) (nb : String) :
    dedupPassLoop (activePass nb) (dbValues db) []
      = dedupFirstByTitle ((dbValues db).filter (activePass nb)) [] :=
  dedupPassLoop_eq_filter_dedup _ _ _

/-- C3 (counterexample): with two same-titled index entries where only the
later one is in place, the code's loop keeps the later entry, while
deduplicating before filtering (the claim's reading) would keep nothing. -/
theorem c3_first_occurrence_counterexample :
    dedupPassLoop (activePass "") (dbValues c3Db) [] ≠ specDedupThenFilter c3Db ""
    ∧ dedupPassLoop (activePass "") (dbValues c3Db) [] = [c3Art2]
    ∧ specDedupThenFilter c3Db "" = [] := by
  decide

/-- C4 (amended): `get_artwork_status` is case-insensitive whenever the
lowercased query is a key of the index: two queries with the same lowercasing
produce identical output when an exact match exists, since the exact branch
is rendered purely from the stored record.  (The unamended claim — identical
output for every query — is refuted by `c4_echo_counterexample`: the fuzzy
and no-match messages echo the query verbatim, case included.) -/
theorem c4_case_insensitive_exact (db : Db) (n1 n2 : String) (d : Bool)
    (hl : pyLower n1 = pyLower n2) (hk : (dbLookup db (pyLower n1)).isSome = true) :
    get_artwork_status db n1 d = get_artwork_status db n2 d := by
  have hd : n1.data.map Char.toLower = n2.data.map Char.toLower :=
    congrArg String.data hl
  by_cases h1 : n1 = ""
  · have h2 : n2 = "" := by
      rw [string_eq_empty_iff] at h1 ⊢
      rw [h1] at hd
      simpa using hd.symm
    rw [h1, h2]
  · have h2 : n2 ≠ "" := by
      intro hc
      apply h1
      rw [string_eq_empty_iff] at hc ⊢
      rw [hc] at hd
      simpa using hd
    obtain ⟨art, ha⟩ := Option.isSome_iff_exists.mp hk
    unfold get_artwork_status
    rw [if_neg h1, if_neg h2, ← hl, ha]

/-- C4 (counterexample): on the empty index the queries `a` and `A` lowercase
identically, yet the outputs differ because the no-match message echoes the
query with its original case. -/
theorem c4_echo_counterexample :
    pyLower "a" = pyLower "A"
    ∧ get_artwork_status ([] : Db) "a" false ≠ get_artwork_status ([] : Db) "A" false := by
  decide

/-- C4 witness: the amended theorem at a concrete index holding the key
`orca`, for the case-variants `Orca` and `ORCA` with details requested. -/
theorem c4_witness :
    get_artwork_status c4Db "Orca" true = get_artwork_status c4Db "ORCA" true :=
  c4_case_insensitive_exact c4Db "Orca" "ORCA" true (by decide) (by decide)

theorem mem_statusFuzzyMatches (db : Db) (q k : String) (d : Artwork)
    (hk : (k, d) ∈ db) (hsub : strContains k (pyLower q) = true) :
    d ∈ statusFuzzyMatches db q := by
  unfold statusFuzzyMatches
  refine List.mem_map.mpr ⟨(k, d), List.mem_filter.mpr ⟨hk, ?_⟩, rfl⟩
  simp [hsub]

/-- C5 (amended): when the query is nonempty, has no exact lowercased-key
match, and is a substring of some (lowercased) index key, that key's record
is among the fuzzy matches `get_artwork_status` collects, and the output is
the fuzzy-match rendering of exactly that collection — which lists only the
first five matches.  (The unamended claim, that the record is listed in the
output, is refuted by `c5_sixth_match_counterexample` when the record is the
sixth match.) -/
theorem c5_fuzzy_superset (db : Db) (q k : String) (d : Artwork) (dtl : Bool)
    (hq : q ≠ "") (hnx : dbLookup db (pyLower q) = none)
    (hk : (k, d) ∈ db) (hsub : strContains k (pyLower q) = true) :
    d ∈ statusFuzzyMatches db q
    ∧ get_artwork_status db q dtl = fuzzyResponse q (statusFuzzyMatches db q) := by
  have hm := mem_statusFuzzyMatches db q k d hk hsub
  refine ⟨hm, ?_⟩
  unfold get_artwork_status
  rw [if_neg hq]
  simp only [hnx]
  cases hx : statusFuzzyMatches db q with
  | nil => rw [hx] at hm; cases hm
  | cons a as => simp

/-- C5 (counterexample): with six keys containing the query `a` and none
equal to it, the sixth matching record is counted but not listed — it is
outside the first five fuzzy results, and its title `T6` never appears in
the output string. -/
theorem c5_sixth_match_counterexample :
    dbLookup c5Db (pyLower "a") = none
    ∧ ("a6", c5Art6) ∈ c5Db
    ∧ strContains "a6" (pyLower "a") = true
    ∧ c5Art6 ∉ (statusFuzzyMatches c5Db "a").take 5
    ∧ strContains (get_artwork_status c5Db "a" false) "T6" = false := by
  decide

/-- C5 witness: the amended theorem at a concrete one-entry index for the
query `orc`, a substring of the key `digital orca`. -/
theorem c5_witness :
    c5wArt ∈ statusFuzzyMatches c5wDb "orc"
    ∧ get_artwork_status c5wDb "orc" false
        = fuzzyResponse "orc" (statusFuzzyMatches c5wDb "orc") :=
  c5_fuzzy_superset c5wDb "orc" "digital orca" c5wArt false (by decide) (by decide)
    (by decide) (by decide)

theorem pySlice_length_le (l : List α) (n : Int) (h : 0 ≤ n) :
    ((pySlice l n).length : Int) ≤ n := by
  unfold pySlice
  rw [if_pos h, List.length_take]
  have h1 : min n.toNat l.length ≤ n.toNat := Nat.min_le_left _ _
  omega

/-- C6 (amended): for every nonnegative limit, `list_active_artworks` lists
at most `limit` entries, and whenever the total matching count exceeds the
limit the output is the header followed by a trailing message reporting
exactly `total - limit` more artworks.  (The unamended claim quantifies over
every integer limit; `c6_negative_limit_counterexample` refutes it for a
negative limit, which Python slicing treats as drop-from-the-end.) -/
theorem c6_limit_bound (db : Db) (nb : String) (limit : Int) (h : 0 ≤ limit) :
    ((pySlice (activeSorted db nb) limit).length : Int) ≤ limit
    ∧ (((activeSorted db nb).length : Int) > limit →
        list_active_artworks db nb limit
          = listActiveHeader db nb limit ++ "\nThere are " ++
            toString (((activeSorted db nb).length : Int) - limit) ++
            " more active artworks.") := by
  refine ⟨pySlice_length_le _ _ h, fun hgt => ?_⟩
  have hne : (activeSorted db nb).isEmpty = false := by
    cases hx : activeSorted db nb with
    | nil => rw [hx] at hgt; simp at hgt; omega
    | cons a as => rfl
  unfold list_active_artworks
  rw [if_neg (by simp [hne]), if_pos hgt]

/-- C6 (counterexample): with two active artworks and the integer limit −1,
the code lists one entry (Python's `[:-1]` drops the last element), and one
entry is not at most −1 — the claimed bound fails for a negative limit. -/
theorem c6_negative_limit_counterexample :
    (pySlice (activeSorted c6Db "") (-1)).length = 1
    ∧ ¬ (((pySlice (activeSorted c6Db "") (-1)).length : Int) ≤ -1) := by
  decide

/-- C6 witness: the amended theorem at a concrete two-record index with
limit 1, including the "more remain" equation. -/
theorem c6_witness :
    list_active_artworks c6Db "" 1
      = listActiveHeader c6Db "" 1 ++ "\nThere are " ++
        toString (((activeSorted c6Db "").length : Int) - 1) ++
        " more active artworks." :=
  (c6_limit_bound c6Db "" 1 (by decide)).2 (by decide)

/-- C7: for every index, `compare` and `status` on the empty string return
their distinct non-empty input-error messages without raising (the embedding
is total), and `compare` on a non-empty input whose tokenization is empty
returns the format-error message, distinct from the empty-input error. -/
theorem c7_error_messages (db : Db) (d : Bool) (s : String)
    (hs : s ≠ "") (ht : tokenize s = []) :
    compare_artwork_status db "" = "Error: No artwork names provided"
    ∧ get_artwork_status db "" d = "Error: No artwork name provided"
    ∧ compare_artwork_status db "" ≠ ""
    ∧ get_artwork_status db "" d ≠ ""
    ∧ compare_artwork_status db "" ≠ get_artwork_status db "" d
    ∧ compare_artwork_status db s
        = "Error: Invalid input format. Please provide a comma-separated list of artwork names."
    ∧ compare_artwork_status db s ≠ compare_artwork_status db "" := by
  have h1 : compare_artwork_status db "" = "Error: No artwork names provided" := by
    unfold compare_artwork_status
    rw [if_pos rfl]
  have h2 : get_artwork_status db "" d = "Error: No artwork name provided" := by
    unfold get_artwork_status
    rw [if_pos rfl]
  have h3 : compare_artwork_status db s
      = "Error: Invalid input format. Please provide a comma-separated list of artwork names." := by
    unfold compare_artwork_status
    rw [if_neg hs, ht]
    rfl
  refine ⟨h1, h2, ?_, ?_, ?_, h3, ?_⟩
  · rw [h1]; decide
  · rw [h2]; decide
  · rw [h1, h2]; decide
  · rw [h3, h1]; decide

/-- C7 witness: the error-message theorem at the concrete input `,`, whose
tokenization is empty though the string is not. -/
theorem c7_witness :
    compare_artwork_status ([] : Db) ","
      = "Error: Invalid input format. Please provide a comma-separated list of artwork names." :=
  (c7_error_messages [] false "," (by decide) (by decide)).2.2.2.2.2.1

theorem get_artwork_status_ne_empty (db : Db) (n : String) (d : Bool) :
    get_artwork_status db n d ≠ "" := by
  unfold get_artwork_status
  split
  · decide
  · split
    · split
      · apply strNe_empty_of_data
        repeat apply strAppend_data_ne_nil
        decide
      · apply strNe_empty_of_data
        repeat apply strAppend_data_ne_nil
        decide
    · split
      · apply strNe_empty_of_data
        repeat apply strAppend_data_ne_nil
        decide
      · unfold fuzzyResponse
        apply strNe_empty_of_data
        repeat apply strAppend_data_ne_nil
        decide

theorem list_active_artworks_ne_empty (db : Db) (nb : String) (lim : Int) :
    list_active_artworks db nb lim ≠ "" := by
  unfold list_active_artworks listActiveHeader
  split
  · split
    · apply strNe_empty_of_data
      repeat apply strAppend_data_ne_nil
      decide
    · decide
  · split
    · apply strNe_empty_of_data
      repeat apply strAppend_data_ne_nil
      decide
    · apply strNe_empty_of_data
      repeat apply strAppend_data_ne_nil
      decide

theorem compare_artwork_status_ne_empty (db : Db) (s : String) :
    compare_artwork_status db s ≠ "" := by
  unfold compare_artwork_status compareResponse
  split
  · decide
  · split
    · decide
    · apply strNe_empty_of_data
      repeat apply strAppend_data_ne_nil
      decide

theorem list_artworks_by_neighborhood_ne_empty (db : Db) (nb : String) (lim : Int) :
    list_artworks_by_neighborhood db nb lim ≠ "" := by
  unfold list_artworks_by_neighborhood listNbHeader
  split
  · apply strNe_empty_of_data
    repeat apply strAppend_data_ne_nil
    decide
  · split
    · apply strNe_empty_of_data
      repeat apply strAppend_data_ne_nil
      decide
    · apply strNe_empty_of_data
      repeat apply strAppend_data_ne_nil
      decide

/-- C9: every query operation is total on every index and every input — the
four embedded operations always return a non-empty string (the Lean embedding
is total, so no exception path exists), including at the empty query string —
and on the empty index the lookup operations return their "not found" /
"no artworks found" wording (for a nonempty query name, since the empty name
takes the input-error path instead). -/
theorem c9_totality (db : Db) (n nb s : String) (d : Bool) (lim : Int) :
    get_artwork_status db n d ≠ ""
    ∧ list_active_artworks db nb lim ≠ ""
    ∧ compare_artwork_status db s ≠ ""
    ∧ list_artworks_by_neighborhood db nb lim ≠ ""
    ∧ (n ≠ "" →
        get_artwork_status ([] : Db) n d = "No artwork found matching '" ++ n ++ "'")
    ∧ list_active_artworks ([] : Db) nb lim
        = (if nb ≠ "" then "No active artworks found in the " ++ nb ++ " neighborhood"
           else "No active artworks found")
    ∧ list_artworks_by_neighborhood ([] : Db) nb lim
        = "No artworks found in the " ++ nb ++ " neighborhood." := by
  refine ⟨get_artwork_status_ne_empty db n d, list_active_artworks_ne_empty db nb lim,
    compare_artwork_status_ne_empty db s, list_artworks_by_neighborhood_ne_empty db nb lim,
    ?_, ?_, ?_⟩
  · intro hn
    unfold get_artwork_status
    rw [if_neg hn]
    rfl
  · rfl
  · rfl

/-- C9 witness: the totality theorem at concrete inputs, projected to the
empty-index "not found" equation for the query `Ghost`, discharging the
nonempty-name guard there. -/
theorem c9_witness :
    get_artwork_status ([] : Db) "Ghost" false
      = "No artwork found matching '" ++ "Ghost" ++ "'" :=
  (c9_totality [] "Ghost" "" "" false 0).2.2.2.2.1 (by decide)

/-- C10: `compare` preserves input order and multiplicity within each bucket:
the resolved results are in one-to-one order-preserving correspondence with
the non-empty trimmed tokens (one result per token, duplicates included), and
each bucket is the in-order `filterMap` of the per-token resolution over the
token list — so entries appear in each bucket in the relative order of their
tokens in the comma-separated input. -/
theorem c10_order_preservation (db : Db) (s : String) :
    ((tokenize s).map (compareLookup db)).length = (tokenize s).length
    ∧ inPlaceBucket ((tokenize s).map (compareLookup db))
        = (tokenize s).filterMap (inPlaceSel ∘ compareLookup db)
    ∧ notInPlaceBucket ((tokenize s).map (compareLookup db))
        = (tokenize s).filterMap (notInPlaceSel ∘ compareLookup db)
    ∧ notFoundBucket ((tokenize s).map (compareLookup db))
        = (tokenize s).filterMap (notFoundSel ∘ compareLookup db) := by
  exact ⟨List.length_map _ _, List.filterMap_map _ _ _, List.filterMap_map _ _ _,
    List.filterMap_map _ _ _⟩
